import Mathlib

/-!
Verification of the pydora request transport and model-mapping layer.

Shallow embedding conventions:
* Python `bytes` values are `List Nat` with every element below 256.
* Python `str` values handled by the hex codec are `List Char`.
* JSON payloads are modeled by the `PyVal` inductive further below.
* Fallible Python code (raising exceptions) returns `Except`/`Option`.

Each definition is translated from the named function in the repository
source; the file ends with one theorem per specification claim.
-/

set_option autoImplicit false

namespace Pydora

/-! ### Cryptography codec: `pandora/transport.py`, class `Encryptor` -/

/-- Blowfish.block_size as used by `Encryptor.add_padding`. -/
def blockSize : Nat := 8

/-- Encryptor.add_padding (transport.py lines 265-268):
`pad_size = len(data) % block_size; return data + chr(pad_size) * (block_size - pad_size)`.
The appended bytes each carry the value `len(data) % block_size`. -/
def add_padding (data : List Nat) : List Nat :=
  let pad_size := data.length % blockSize
  data ++ List.replicate (blockSize - pad_size) pad_size

/-- Python negative-index slice `data[-p:]`; note `data[-0:]` is all of `data`. -/
def sliceFromNeg (data : List Nat) (p : Nat) : List Nat :=
  if p = 0 then data else data.drop (data.length - p)

/-- Python negative-index slice `data[:-p]`; note `data[:-0]` is empty. -/
def sliceUpToNeg (data : List Nat) (p : Nat) : List Nat :=
  if p = 0 then [] else data.take (data.length - p)

/-- Encryptor.strip_padding (transport.py lines 270-274):
reads `pad_size = int(data[-1])`, raises a ValueError of "Invalid padding" unless
`data[-pad_size:] == bytes((pad_size,)) * pad_size`, else returns `data[:-pad_size]`.
An empty input raises IndexError at `data[-1]`. -/
def strip_padding (data : List Nat) : Except String (List Nat) :=
  match data.getLast? with
  | Option.none => Except.error "IndexError"
  | Option.some pad_size =>
      if sliceFromNeg data pad_size = List.replicate pad_size pad_size then
        Except.ok (sliceUpToNeg data pad_size)
      else
        Except.error "Invalid padding"

/-- Upper-case hexadecimal digit character for a value below 16. -/
def hexCharUpper (n : Nat) : Char :=
  Char.ofNat (if n < 10 then 48 + n else 55 + n)

/-- base64.b16encode: two upper-case hex digits per byte. -/
def b16encode : List Nat → List Char
  | [] => []
  | b :: bs => hexCharUpper (b / 16) :: hexCharUpper (b % 16) :: b16encode bs

/-- Python str.lower on the ASCII strings produced by the codec. -/
def pyLower (s : List Char) : List Char := s.map Char.toLower

/-- Python str.upper on the ASCII strings consumed by the codec. -/
def pyUpper (s : List Char) : List Char := s.map Char.toUpper

/-- Value of one hex digit for base64.b16decode, which (without casefold)
accepts only `0-9` and the upper-case letters `A-F`. -/
def hexDigitVal (c : Char) : Option Nat :=
  if 48 ≤ c.toNat ∧ c.toNat ≤ 57 then Option.some (c.toNat - 48)
  else if 65 ≤ c.toNat ∧ c.toNat ≤ 70 then Option.some (c.toNat - 55)
  else Option.none

/-- base64.b16decode on an even-length upper-case hex string; `none` models the
binascii.Error raised on anything else. -/
def b16decode : List Char → Option (List Nat)
  | [] => Option.some []
  | [_] => Option.none
  | c1 :: c2 :: rest =>
      match hexDigitVal c1, hexDigitVal c2, b16decode rest with
      | Option.some h, Option.some l, Option.some bs => Option.some ((16 * h + l) :: bs)
      | _, _, _ => Option.none

/-- Encryptor._encode_hex (transport.py lines 254-256):
`base64.b16encode(data).lower()`. -/
def encode_hex (data : List Nat) : List Char := pyLower (b16encode data)

/-- Encryptor._decode_hex (transport.py lines 250-252):
`base64.b16decode(data.encode("ascii").upper())`. -/
def decode_hex (s : List Char) : Option (List Nat) := b16decode (pyUpper s)

/-- Blowfish ECB cipher object: a pair of byte-string transforms standing for
`bf.encrypt` and `bf.decrypt` of the underlying block cipher. -/
structure BlowfishECB where
  enc : List Nat → List Nat
  dec : List Nat → List Nat

/-- Encryptor.encrypt (transport.py lines 276-277):
`self._encode_hex(self.bf_out.encrypt(self.add_padding(data)))`. -/
def encrypt (bf : BlowfishECB) (data : List Nat) : List Char :=
  encode_hex (bf.enc (add_padding data))

/-- Encryptor.decrypt (transport.py lines 258-260) up to the final `json.loads`:
hex-decode, block-decrypt with the same `bf_out` cipher, then strip padding. -/
def decryptRaw (bf : BlowfishECB) (s : List Char) : Except String (List Nat) :=
  match decode_hex s with
  | Option.none => Except.error "binascii.Error"
  | Option.some bs => strip_padding (bf.dec bs)

/-- A cipher whose encrypt and decrypt are both the identity; composing the real
Blowfish encrypt with its matching decrypt gives the identity as well, so the
padding behaviour of the codec round trip is exactly that of this instance. -/
def idBlowfish : BlowfishECB := BlowfishECB.mk id id

/-- The ASCII bytes of the string "123456", the plaintext used by the
repository's own cryptor tests. -/
def bytes123456 : List Nat := [49, 50, 51, 52, 53, 54]

end Pydora

namespace Pydora

/-! ### Codec claim theorems -/

/-- C1: the claim states `decrypt(encrypt(plaintext))` is the identity for every
plaintext.  Evaluating the embedded code on the six-byte plaintext "123456"
(the plaintext of the repository's own cryptor tests): `add_padding` appends two
bytes of value 6 (the length modulo the block size) while `strip_padding`
demands the trailing bytes equal the pad count, so the round trip raises
ValueError("Invalid padding") instead of returning the plaintext. -/
theorem decrypt_encrypt_not_roundtrip_on_123456 :
    decryptRaw idBlowfish (encrypt idBlowfish bytes123456)
      = Except.error "Invalid padding" := rfl

/-- C5: the claim states encrypt pads with bytes whose value equals the pad
length (PKCS#5/7).  Evaluating the code on "123456": the pad length is 2 but
`add_padding` appends bytes of value 6; `strip_padding` itself does expect
PKCS#7 form (it accepts the test-suite's `"123456" ++ [2, 2]`), and therefore
rejects `add_padding`'s own output. -/
theorem add_padding_value_mismatch :
    add_padding bytes123456 = bytes123456 ++ [6, 6]
    ∧ strip_padding (bytes123456 ++ [2, 2]) = Except.ok bytes123456
    ∧ strip_padding (add_padding bytes123456) = Except.error "Invalid padding" :=
  ⟨rfl, rfl, rfl⟩

/-- C9 counterexample: the claim states encrypt output is upper-case hex on the
wire, but `_encode_hex` ends in `.lower()`: the byte 0xAB encodes to "ab",
which is not fixed by upper-casing. -/
theorem encode_hex_lowercase_counterexample :
    pyUpper (encode_hex [171]) ≠ encode_hex [171] := by decide

/-- Lower-casing a hex digit character twice is the same as once. -/
theorem hexChar_toLower_idem :
    ∀ n, n < 16 → Char.toLower (Char.toLower (hexCharUpper n)) =
      Char.toLower (hexCharUpper n) := by decide

/-- b16decode's digit table recovers a digit from the upper-cased form of the
lower-case wire character. -/
theorem hexChar_decode_lower :
    ∀ n, n < 16 → hexDigitVal (Char.toUpper (Char.toLower (hexCharUpper n))) =
      Option.some n := by decide

/-- As `hexChar_decode_lower`, after a caller upper-cases the wire string. -/
theorem hexChar_decode_upper_lower :
    ∀ n, n < 16 →
      hexDigitVal (Char.toUpper (Char.toUpper (Char.toLower (hexCharUpper n)))) =
        Option.some n := by decide

/-- C9 amended: the hex codec emits lower-case hex on the wire (encode output is
fixed by `.lower()`), and decode is case-insensitive: it accepts both the
lower-case wire form and its upper-cased variant, returning the original
bytes. -/
theorem hex_lowercase_wire_case_insensitive_decode (bs : List Nat)
    (h : ∀ b ∈ bs, b < 256) :
    pyLower (encode_hex bs) = encode_hex bs
    ∧ decode_hex (encode_hex bs) = Option.some bs
    ∧ decode_hex (pyUpper (encode_hex bs)) = Option.some bs := by
  induction bs with
  | nil => exact ⟨rfl, rfl, rfl⟩
  | cons b bs ih =>
      have hb : b < 256 := h b (List.mem_cons_self _ _)
      obtain ⟨ih1, ih2, ih3⟩ := ih (fun x hx => h x (List.mem_cons_of_mem _ hx))
      have hdiv : b / 16 < 16 := Nat.div_lt_of_lt_mul (by omega)
      have hmod : b % 16 < 16 := Nat.mod_lt _ (by omega)
      have hrec : 16 * (b / 16) + b % 16 = b := Nat.div_add_mod b 16
      simp only [encode_hex, decode_hex, pyLower, pyUpper, b16encode,
        List.map_cons] at ih1 ih2 ih3 ⊢
      refine ⟨?_, ?_, ?_⟩
      · rw [hexChar_toLower_idem _ hdiv, hexChar_toLower_idem _ hmod, ih1]
      · simp only [b16decode, hexChar_decode_lower _ hdiv,
          hexChar_decode_lower _ hmod, ih2]
        rw [hrec]
      · simp only [b16decode, hexChar_decode_upper_lower _ hdiv,
          hexChar_decode_upper_lower _ hmod, ih3]
        rw [hrec]

/-- C9 amended, witness: the amended theorem evaluated on the concrete byte
string [0xAB, 0x00]. -/
theorem hex_lowercase_wire_witness :
    pyLower (encode_hex [171, 0]) = encode_hex [171, 0]
    ∧ decode_hex (encode_hex [171, 0]) = Option.some [171, 0]
    ∧ decode_hex (pyUpper (encode_hex [171, 0])) = Option.some [171, 0] :=
  hex_lowercase_wire_case_insensitive_decode [171, 0] (by decide)

/-! ### JSON values

Python values flowing through the model-mapping layer.  JSON has no bytes
value, so the `bytes` member of `safe_types` never matches a payload value and
is not represented. -/

inductive PyVal where
  | none
  | bool (b : Bool)
  | int (n : Int)
  | str (s : String)
  | list (xs : List PyVal)
  | dict (kvs : List (String × PyVal))

/-- Python truthiness for the values above: None, False, 0, "", [] and
empty dicts are falsy. -/
def truthy : PyVal → Bool
  | PyVal.none => false
  | PyVal.bool b => b
  | PyVal.int n => n != 0
  | PyVal.str s => s != ""
  | PyVal.list xs => !xs.isEmpty
  | PyVal.dict kvs => !kvs.isEmpty

/-- Key lookup in a JSON object, `some` exactly when the key is present
(a present JSON null yields `some PyVal.none`, unlike an absent key). -/
def lookupKV : List (String × PyVal) → String → Option PyVal
  | [], _ => Option.none
  | (k', v) :: rest, k => if k' = k then Option.some v else lookupKV rest k

/-- Python `d.get(key)` on a dict value: None when the key is absent.  The
embedded code only applies this to dict payloads; on any other value it yields
None. -/
def pvGet (v : PyVal) (k : String) : PyVal :=
  match v with
  | PyVal.dict kvs => (lookupKV kvs k).getD PyVal.none
  | _ => PyVal.none

/-! ### AudioField: `pandora/models/playlist.py` lines 38-85 -/

/-- The local `valid_audio_formats` list of AudioField.formatter, ordered from
highest to lowest quality. -/
def validAudioFormats : List String :=
  ["highQuality", "mediumQuality", "lowQuality"]

/-- Python `list.index` for the membership-guarded use in AudioField.formatter. -/
def pyIndex : List String → String → Nat
  | [], _ => 0
  | y :: ys, x => if y = x then 0 else pyIndex ys x + 1

/-- The sublist computation at playlist.py lines 74-77: start the search at the
preferred quality when it is a recognized quality name, else search the whole
list. -/
def audioSearchFormats (preferred : String) : List String :=
  if preferred ∈ validAudioFormats then
    validAudioFormats.drop (pyIndex validAudioFormats preferred)
  else validAudioFormats

/-- The for-loop at playlist.py lines 79-85 with the reassigned `audio_url`
loop variable threaded through; the trailing argument is the value `audio_url`
holds when the loop starts or moves on. -/
def audioLoop (field : String) (urlMap : PyVal) :
    List String → PyVal → PyVal
  | [], audio_url =>
      if truthy audio_url then pvGet audio_url field else PyVal.none
  | q :: rest, _ =>
      let au := pvGet urlMap q
      if truthy au then pvGet au field else audioLoop field urlMap rest au

/-- AudioField.formatter (playlist.py lines 39-85) for a given preferred
quality (`api_client.default_audio_quality`) and target field name
(audioUrl, bitrate or encoding). -/
def audioFieldFormatter (defaultAudioQuality field : String) (data : PyVal) :
    PyVal :=
  let url_map := pvGet data "audioUrlMap"
  let audio_url := pvGet data "audioUrl"
  if truthy audio_url && !truthy url_map then
    let url_map := PyVal.dict [("highQuality", PyVal.dict
      [("audioUrl", audio_url), ("bitrate", PyVal.int 64),
       ("encoding", PyVal.str "aacplus")])]
    audioLoop field url_map (audioSearchFormats defaultAudioQuality) audio_url
  else if !truthy url_map then
    PyVal.none
  else
    audioLoop field url_map (audioSearchFormats defaultAudioQuality) audio_url

/-- A payload carrying only a bare audioUrl and no audioUrlMap. -/
def bareUrlPayload : PyVal := PyVal.dict [("audioUrl", PyVal.str "foo")]

/-- C2: the claim states a payload with only a bare audioUrl resolves to that
URL with bitrate 64 / encoding "aacplus" regardless of the preferred quality.
Evaluating the code: the synthesized single-entry map is keyed at highQuality,
so with preferred quality mediumQuality the downward search skips it and all
three audio fields resolve to None; only a highQuality preference reaches the
synthesized entry. -/
theorem audio_bare_url_ignored_for_medium :
    audioFieldFormatter "highQuality" "audioUrl" bareUrlPayload = PyVal.str "foo"
    ∧ audioFieldFormatter "highQuality" "bitrate" bareUrlPayload = PyVal.int 64
    ∧ audioFieldFormatter "mediumQuality" "audioUrl" bareUrlPayload = PyVal.none
    ∧ audioFieldFormatter "mediumQuality" "bitrate" bareUrlPayload = PyVal.none
    ∧ audioFieldFormatter "mediumQuality" "encoding" bareUrlPayload = PyVal.none
    ∧ audioFieldFormatter "lowQuality" "audioUrl" bareUrlPayload = PyVal.none :=
  ⟨rfl, rfl, rfl, rfl, rfl, rfl⟩

/-! ### Model mapping layer: `pandora/models/_base.py`

A non-synthetic field declaration (class Field).  The formatter and the
submodel constructor close over the api_client; `model` stands for the
submodel class's `from_json` applied to one JSON object. -/

structure FieldSpec where
  field : String
  default : PyVal
  formatter : Option (PyVal → PyVal)
  model : Option (PyVal → PyVal)

/-- Python runtime types distinguished by `PandoraModel.__init__`. -/
inductive PyTy where
  | noneT
  | boolT
  | intT
  | strT
  | listT
  | dictT
deriving DecidableEq

/-- Python `type(v)` on a payload value. -/
def typeOfVal : PyVal → PyTy
  | PyVal.none => PyTy.noneT
  | PyVal.bool _ => PyTy.boolT
  | PyVal.int _ => PyTy.intT
  | PyVal.str _ => PyTy.strT
  | PyVal.list _ => PyTy.listT
  | PyVal.dict _ => PyTy.dictT

/-- Python `type(v)()`: the fresh empty/zero value of a type. -/
def emptyOfTy : PyTy → PyVal
  | PyTy.noneT => PyVal.none
  | PyTy.boolT => PyVal.bool false
  | PyTy.intT => PyVal.int 0
  | PyTy.strT => PyVal.str ""
  | PyTy.listT => PyVal.list []
  | PyTy.dictT => PyVal.dict []

/-- `isinstance(default, safe_types)` from PandoraModel.__init__ (lines
104-115), with `safe_types = (type(None), str, bytes, int, bool)`; JSON
payloads carry no bytes values. -/
def isSafeType : PyVal → Bool
  | PyVal.none => true
  | PyVal.bool _ => true
  | PyVal.int _ => true
  | PyVal.str _ => true
  | PyVal.list _ => false
  | PyVal.dict _ => false

/-- An attribute binding with the object identity (provenance) that the claims
about shared mutable defaults are stated over:
`plain` is an immutable safe-type default (identity immaterial in Python);
`sharedDefault` is the one declared default object of the Field declaration,
shared by every instance that ends up bound to it;
`freshEmpty` is a newly constructed `type(default)()` container, one per call;
`fromPayload` is a value built from the call's JSON payload (or a
formatter/submodel result). -/
inductive AttrVal where
  | plain (v : PyVal)
  | sharedDefault (v : PyVal)
  | freshEmpty (t : PyTy)
  | fromPayload (v : PyVal)

/-- The value held by an attribute binding. -/
def valOfAttr : AttrVal → PyVal
  | AttrVal.plain v => v
  | AttrVal.sharedDefault v => v
  | AttrVal.freshEmpty t => emptyOfTy t
  | AttrVal.fromPayload v => v

/-- PandoraModel.__init__ (lines 104-115): bind the field to its default when
the default is of a safe type, else to a brand-new `type(default)()`. -/
def initAttr (f : FieldSpec) : AttrVal :=
  if isSafeType f.default then AttrVal.plain f.default
  else AttrVal.freshEmpty (typeOfVal f.default)

/-- `newval = data.get(value.field, default)` (line 128): a present key yields
the payload value, an absent key yields the declared default object itself. -/
def resolveAttr (f : FieldSpec) (data : List (String × PyVal)) : AttrVal :=
  match lookupKV data f.field with
  | Option.some v => AttrVal.fromPayload v
  | Option.none => AttrVal.sharedDefault f.default

/-- Lines 137-140: `model_class.from_json_list` on a list value, else
`model_class.from_json`. -/
def applyModel (ctor : PyVal → PyVal) (v : PyVal) : PyVal :=
  match v with
  | PyVal.list xs => PyVal.list (xs.map ctor)
  | _ => ctor v

/-- Lines 135-140: submodel construction replaces `newval` only when a model
class is declared and `newval` is truthy. -/
def stepModelAttr (f : FieldSpec) (a : AttrVal) : AttrVal :=
  match f.model with
  | Option.some ctor =>
      if truthy (valOfAttr a) then AttrVal.fromPayload (applyModel ctor (valOfAttr a))
      else a
  | Option.none => a

/-- Lines 142-143: the formatter runs only when a formatter is declared and the
(possibly submodel-replaced) `newval` is truthy. -/
def stepFormatterAttr (f : FieldSpec) (a : AttrVal) : AttrVal :=
  match f.formatter with
  | Option.some fmt =>
      if truthy (valOfAttr a) then AttrVal.fromPayload (fmt (valOfAttr a))
      else a
  | Option.none => a

/-- PandoraModel.populate_fields (lines 126-145) for one non-synthetic field:
the attribute binding stored by the final `setattr`. -/
def populateAttr (f : FieldSpec) (data : List (String × PyVal)) : AttrVal :=
  stepFormatterAttr f (stepModelAttr f (resolveAttr f data))

/-- The stored value together with whether the formatter ran, projected from
the same populate_fields logic. -/
def populateField (f : FieldSpec) (data : List (String × PyVal)) :
    PyVal × Bool :=
  let a := stepModelAttr f (resolveAttr f data)
  match f.formatter with
  | Option.some fmt =>
      if truthy (valOfAttr a) then (fmt (valOfAttr a), true)
      else (valOfAttr a, false)
  | Option.none => (valOfAttr a, false)

/-- C6: for a declared non-synthetic field (every Field declared in this
repository has a falsy default: None, False or [], hence the hypothesis),
populate_fields stores the declared default when the source key is absent,
stores a present falsy value raw with no formatter call, and (for the
fields without a submodel class, which covers every declared field carrying a
formatter) runs the formatter exactly when the resolved value is truthy. -/
theorem populate_field_default_and_falsy (f : FieldSpec)
    (data : List (String × PyVal)) (hdef : truthy f.default = false) :
    (lookupKV data f.field = Option.none → populateField f data = (f.default, false))
    ∧ (∀ v, lookupKV data f.field = Option.some v → truthy v = false →
        populateField f data = (v, false))
    ∧ (f.model = Option.none →
        ((populateField f data).2 = true ↔
          f.formatter.isSome = true
          ∧ truthy ((lookupKV data f.field).getD f.default) = true)) := by
  refine ⟨?_, ?_, ?_⟩
  · intro hmiss
    simp only [populateField, stepModelAttr, resolveAttr, hmiss]
    cases hm : f.model with
    | none =>
        cases hf : f.formatter with
        | none => simp [valOfAttr]
        | some fmt => simp [valOfAttr, hdef]
    | some ctor =>
        cases hf : f.formatter with
        | none => simp [valOfAttr, hdef]
        | some fmt => simp [valOfAttr, hdef]
  · intro v hv hfalsy
    simp only [populateField, stepModelAttr, resolveAttr, hv]
    cases hm : f.model with
    | none =>
        cases hf : f.formatter with
        | none => simp [valOfAttr]
        | some fmt => simp [valOfAttr, hfalsy]
    | some ctor =>
        cases hf : f.formatter with
        | none => simp [valOfAttr, hfalsy]
        | some fmt => simp [valOfAttr, hfalsy]
  · intro hm
    simp only [populateField, stepModelAttr, resolveAttr, hm]
    cases hl : lookupKV data f.field with
    | none =>
        cases hf : f.formatter with
        | none => simp [valOfAttr, Option.getD, hdef]
        | some fmt => simp [valOfAttr, Option.getD, hdef]
    | some v =>
        cases hf : f.formatter with
        | none => simp [valOfAttr, Option.getD]
        | some fmt =>
            by_cases ht : truthy v = true <;>
              simp [valOfAttr, Option.getD, ht]

/-- C6 witness: a field with a formatter, default None, against a payload whose
key holds the falsy value 0: the raw 0 is stored and the formatter is skipped. -/
theorem populate_field_default_and_falsy_witness :
    populateField (FieldSpec.mk "k" PyVal.none
      (Option.some (fun _ => PyVal.str "X")) Option.none)
      [("k", PyVal.int 0)] = (PyVal.int 0, false) :=
  ((populate_field_default_and_falsy
      (FieldSpec.mk "k" PyVal.none (Option.some (fun _ => PyVal.str "X"))
        Option.none)
      [("k", PyVal.int 0)] rfl).2.1) (PyVal.int 0) rfl rfl

/-- The Station.genre field declaration (`Field("genre", [])`,
models/station.py line 76): a mutable (list) default. -/
def genreField : FieldSpec :=
  FieldSpec.mk "genre" (PyVal.list []) Option.none Option.none

/-- C7: the claim states no constructed instance shares the single declared
default container object.  Evaluating the code on the declared Station.genre
field and a payload missing the key: populate_fields stores
`data.get("genre", default)`, which IS the single declared default list object,
so every instance built by from_json from such a payload is bound to that one
shared list (while __init__ alone would have bound a fresh empty copy). -/
theorem populate_rebinds_shared_default :
    isSafeType (PyVal.list []) = false
    ∧ initAttr genreField = AttrVal.freshEmpty PyTy.listT
    ∧ populateAttr genreField [] = AttrVal.sharedDefault (PyVal.list []) :=
  ⟨rfl, rfl, rfl⟩

/-- C10: for a field whose declared default is not of a safe type, __init__
binds a newly constructed empty container of the default's type (discarding the
default's contents), and populate_fields rebinds the attribute to the declared
default object itself whenever the source key is absent (no declared field with
a non-safe default carries a formatter or submodel class, hence those
hypotheses). -/
theorem init_fresh_empty_populate_shared_default (f : FieldSpec)
    (data : List (String × PyVal)) (hsafe : isSafeType f.default = false) :
    initAttr f = AttrVal.freshEmpty (typeOfVal f.default)
    ∧ valOfAttr (initAttr f) = emptyOfTy (typeOfVal f.default)
    ∧ (f.formatter = Option.none → f.model = Option.none →
        lookupKV data f.field = Option.none →
        populateAttr f data = AttrVal.sharedDefault f.default) := by
  refine ⟨?_, ?_, ?_⟩
  · simp [initAttr, hsafe]
  · simp [initAttr, hsafe, valOfAttr]
  · intro hf hm hmiss
    simp [populateAttr, stepFormatterAttr, stepModelAttr, resolveAttr,
      hf, hm, hmiss]

/-- C10 witness: a field declared with the non-empty mutable default [1, 2]
yields the fresh empty list at __init__ time and the shared declared default
object after populate_fields on a payload missing the key. -/
theorem init_fresh_empty_witness :
    initAttr (FieldSpec.mk "g" (PyVal.list [PyVal.int 1, PyVal.int 2])
        Option.none Option.none)
      = AttrVal.freshEmpty PyTy.listT
    ∧ valOfAttr (initAttr (FieldSpec.mk "g"
        (PyVal.list [PyVal.int 1, PyVal.int 2]) Option.none Option.none))
      = PyVal.list []
    ∧ populateAttr (FieldSpec.mk "g" (PyVal.list [PyVal.int 1, PyVal.int 2])
        Option.none Option.none) []
      = AttrVal.sharedDefault (PyVal.list [PyVal.int 1, PyVal.int 2]) := by
  obtain ⟨h1, h2, h3⟩ := init_fresh_empty_populate_shared_default
    (FieldSpec.mk "g" (PyVal.list [PyVal.int 1, PyVal.int 2])
      Option.none Option.none) [] rfl
  exact ⟨h1, h2, h3 rfl rfl rfl⟩

/-! ### Retry decorator: `pandora/transport.py` lines 29-85 -/

/-- Pandora API error kinds relevant to the claims (class hierarchy from
pandora/errors.py). -/
inductive PError where
  | invalidAuthToken
  | invalidPartnerLogin
  | invalidUserLogin
  | apiError (code : Int)
deriving DecidableEq

/-- Python exceptions observed by the retries decorator: PandoraException
subclasses, ValueError (malformed padding, malformed JSON) and anything
else. -/
inductive PyExc where
  | pandora (e : PError)
  | valueError (msg : String)
  | otherExc (name : String)
deriving DecidableEq

/-- `isinstance(exc, PandoraException)` (transport.py line 55). -/
def isPandoraExc : PyExc → Bool
  | PyExc.pandora _ => true
  | _ => false

/-- Result of one invocation of the wrapped function. -/
inductive CallOutcome where
  | ok (v : PyVal)
  | exc (e : PyExc)

/-- What the decorated call produces overall: a value, a propagated exception,
or Python's implicit None when `max_tries` is zero and the loop never runs. -/
inductive RetResult where
  | value (v : PyVal)
  | raised (e : PyExc)
  | noneReturned

/-- delay_exponential (transport.py lines 68-85) for a numeric base:
raises ValueError unless the base is positive, else
`base * growth_factor ^ (attempts - 1)`.  The 'rand' marker draws a random
base in [0,1); no claim exercises that branch since the retries decorator
always passes 0.5. -/
def delay_exponential (base growth_factor : ℚ) (attempts : Nat) :
    Except String ℚ :=
  if base ≤ 0 then Except.error "ValueError"
  else Except.ok (base * growth_factor ^ (attempts - 1))

/-- The while-loop of the retries decorator (transport.py lines 43-63).
`f n` is the outcome of the n-th invocation of the wrapped function; the
result carries the final outcome, the number of invocations made and the
sleeps performed (`delay_exponential(0.5, 2, max_tries - retries_left)`;
base 0.5 is positive so its ValueError branch is unreachable). -/
def retriesRun (maxTries : Nat) (f : Nat → CallOutcome) :
    Nat → Nat → List ℚ → RetResult × Nat × List ℚ
  | 0, calls, sleeps => (RetResult.noneReturned, calls, sleeps)
  | retriesLeft + 1, calls, sleeps =>
      match f calls with
      | CallOutcome.ok v => (RetResult.value v, calls + 1, sleeps)
      | CallOutcome.exc e =>
          if isPandoraExc e then (RetResult.raised e, calls + 1, sleeps)
          else if 0 < retriesLeft then
            retriesRun maxTries f retriesLeft (calls + 1)
              (sleeps ++
                [((delay_exponential (1 / 2) 2 (maxTries - retriesLeft)).toOption).getD 0])
          else (RetResult.raised e, calls + 1, sleeps)

/-- `@retries(max_tries)` applied to a function, as on `APITransport.__call__`
(which uses `@retries(3)`). -/
def retriesCall (maxTries : Nat) (f : Nat → CallOutcome) :
    RetResult × Nat × List ℚ :=
  retriesRun maxTries f maxTries 0 []

/-- A wrapped call that raises ValueError (as malformed JSON or malformed
padding does) on its first invocation and succeeds on its second. -/
def jsonErrScript : Nat → CallOutcome := fun n =>
  if n = 0 then CallOutcome.exc (PyExc.valueError "Expecting value")
  else CallOutcome.ok (PyVal.str "result")

/-- C4 counterexample: the claim states protocol errors (malformed padding or
JSON, raised as ValueError) fail fast and are never retried, but the retry
loop exempts only PandoraException: a first-call ValueError is retried and the
call succeeds on the second invocation (two invocations, not one). -/
theorem value_error_is_retried :
    (retriesCall 3 jsonErrScript).1 = RetResult.value (PyVal.str "result")
    ∧ (retriesCall 3 jsonErrScript).2.1 = 2 :=
  ⟨rfl, rfl⟩

/-- C4 amended: only PandoraExceptions (domain errors) fail fast in the
transport's retry loop; every other exception — protocol ValueErrors from
malformed padding or JSON as well as transient transport errors — is retried
up to the fixed ceiling of 3 tries with exponential backoff (sleeps 0.5 and 1
between the tries) and then surfaced. -/
theorem retries_only_pandora_fail_fast (e : PyExc) (v : PyVal) :
    (isPandoraExc e = true →
      retriesCall 3 (fun _ => CallOutcome.exc e)
        = (RetResult.raised e, 1, []))
    ∧ (isPandoraExc e = false →
      retriesCall 3 (fun _ => CallOutcome.exc e)
        = (RetResult.raised e, 3, [1 / 2, 1]))
    ∧ (isPandoraExc e = false →
      retriesCall 3 (fun n => if n = 0 then CallOutcome.exc e else CallOutcome.ok v)
        = (RetResult.value v, 2, [1 / 2])) := by
  refine ⟨?_, ?_, ?_⟩ <;> intro h
  · cases e <;> first | rfl | simp [isPandoraExc] at h
  · cases e with
    | pandora p => simp [isPandoraExc] at h
    | valueError m =>
        show retriesRun 3 _ 3 0 [] = _
        rw [show (3 : Nat) = 2 + 1 from rfl, retriesRun]
        norm_num [isPandoraExc, delay_exponential, retriesRun, Except.toOption]
    | otherExc m =>
        show retriesRun 3 _ 3 0 [] = _
        rw [show (3 : Nat) = 2 + 1 from rfl, retriesRun]
        norm_num [isPandoraExc, delay_exponential, retriesRun, Except.toOption]
  · cases e with
    | pandora p => simp [isPandoraExc] at h
    | valueError m =>
        show retriesRun 3 _ 3 0 [] = _
        rw [show (3 : Nat) = 2 + 1 from rfl, retriesRun]
        norm_num [isPandoraExc, delay_exponential, retriesRun, Except.toOption]
    | otherExc m =>
        show retriesRun 3 _ 3 0 [] = _
        rw [show (3 : Nat) = 2 + 1 from rfl, retriesRun]
        norm_num [isPandoraExc, delay_exponential, retriesRun, Except.toOption]

/-- C4 amended, witness: the amended theorem evaluated at a concrete
ValueError and payload. -/
theorem retries_only_pandora_fail_fast_witness :
    retriesCall 3 (fun n => if n = 0
        then CallOutcome.exc (PyExc.valueError "Expecting value")
        else CallOutcome.ok (PyVal.str "r"))
      = (RetResult.value (PyVal.str "r"), 2, [1 / 2]) :=
  (retries_only_pandora_fail_fast (PyExc.valueError "Expecting value")
    (PyVal.str "r")).2.2 rfl

/-! ### Client facade: `pandora/client.py`, class `BaseAPIClient` -/

/-- A transport invocation: method name and request parameters. -/
structure Request where
  method : String
  params : List (String × PyVal)

/-- The credentials held by BaseAPIClient. -/
structure ClientCreds where
  partner_user : String
  partner_password : String
  device : String
  username : String
  password : String

/-- The transport call made by BaseAPIClient._partner_login (lines 57-66). -/
def partnerLoginRequest (c : ClientCreds) : Request :=
  Request.mk "auth.partnerLogin"
    [("username", PyVal.str c.partner_user),
     ("password", PyVal.str c.partner_password),
     ("deviceModel", PyVal.str c.device),
     ("version", PyVal.str "5")]

/-- The transport call made inside BaseAPIClient._authenticate (lines 77-86). -/
def userLoginRequest (c : ClientCreds) : Request :=
  Request.mk "auth.userLogin"
    [("loginType", PyVal.str "user"),
     ("username", PyVal.str c.username),
     ("password", PyVal.str c.password),
     ("includePandoraOneInfo", PyVal.bool true),
     ("includeSubscriptionExpiration", PyVal.bool true),
     ("returnCapped", PyVal.bool true),
     ("includeAdAttributes", PyVal.bool true),
     ("includeAdvertiserAttributes", PyVal.bool true),
     ("xplatformAdCapable", PyVal.bool true)]

/-- Outcome of one transport invocation (after the transport's own internal
retry loop): a parsed result payload or a raised PandoraException kind. -/
inductive TransportOutcome where
  | ok (v : PyVal)
  | err (e : PError)

/-- BaseAPIClient._authenticate (lines 73-92) against a transport modeled as
the sequence `t` of outcomes of successive transport invocations, starting at
invocation index n: partner login first, then user login, translating
InvalidPartnerLogin raised by the user-login call into InvalidUserLogin.
Returns the outcome, the transport requests made, and the next invocation
index. -/
def authenticate (t : Nat → TransportOutcome) (c : ClientCreds) (n : Nat) :
    Except PError PyVal × List Request × Nat :=
  match t n with
  | TransportOutcome.err e => (Except.error e, [partnerLoginRequest c], n + 1)
  | TransportOutcome.ok _ =>
      match t (n + 1) with
      | TransportOutcome.err e =>
          (Except.error
            (if e = PError.invalidPartnerLogin then PError.invalidUserLogin else e),
           [partnerLoginRequest c, userLoginRequest c], n + 2)
      | TransportOutcome.ok u =>
          (Except.ok u, [partnerLoginRequest c, userLoginRequest c], n + 2)

/-- BaseAPIClient.__call__ (lines 105-110): perform the transport call; on
InvalidAuthToken re-authenticate once and retry the identical call once; any
other error propagates.  Returns the outcome and the full list of transport
requests made. -/
def clientCall (t : Nat → TransportOutcome) (c : ClientCreds) (req : Request) :
    Except PError PyVal × List Request :=
  match t 0 with
  | TransportOutcome.ok v => (Except.ok v, [req])
  | TransportOutcome.err e =>
      if e = PError.invalidAuthToken then
        match authenticate t c 1 with
        | (Except.error e2, auths, _) => (Except.error e2, req :: auths)
        | (Except.ok _, auths, n) =>
            match t n with
            | TransportOutcome.ok v => (Except.ok v, req :: auths ++ [req])
            | TransportOutcome.err e3 => (Except.error e3, req :: auths ++ [req])
      else (Except.error e, [req])

/-- C3: an InvalidAuthToken from the transport triggers exactly one
re-authentication (partner login then user login) followed by exactly one
retry of the identical request, whose outcome — including a second
InvalidAuthToken — is returned as is; a success needs one transport call and
any other error kind propagates without re-authentication. -/
theorem client_call_reauthenticates_once (t : Nat → TransportOutcome)
    (c : ClientCreds) (req : Request) :
    (∀ v, t 0 = TransportOutcome.ok v →
      clientCall t c req = (Except.ok v, [req]))
    ∧ (∀ e, t 0 = TransportOutcome.err e → e ≠ PError.invalidAuthToken →
      clientCall t c req = (Except.error e, [req]))
    ∧ (∀ p u, t 0 = TransportOutcome.err PError.invalidAuthToken →
      t 1 = TransportOutcome.ok p → t 2 = TransportOutcome.ok u →
      (clientCall t c req).2
          = [req, partnerLoginRequest c, userLoginRequest c, req]
      ∧ (∀ v, t 3 = TransportOutcome.ok v →
          (clientCall t c req).1 = Except.ok v)
      ∧ (∀ e, t 3 = TransportOutcome.err e →
          (clientCall t c req).1 = Except.error e)) := by
  refine ⟨?_, ?_, ?_⟩
  · intro v hv
    simp [clientCall, hv]
  · intro e he hne
    simp [clientCall, he, hne]
  · intro p u h0 h1 h2
    refine ⟨?_, ?_, ?_⟩
    · cases h3 : t 3 <;> simp [clientCall, authenticate, h0, h1, h2, h3]
    · intro v h3
      simp [clientCall, authenticate, h0, h1, h2, h3]
    · intro e h3
      simp [clientCall, authenticate, h0, h1, h2, h3]

/-- A transport scripted to raise InvalidAuthToken, let the two login calls
succeed, then raise InvalidAuthToken again on the retried call. -/
def scriptedTransport : Nat → TransportOutcome := fun n =>
  if n = 0 then TransportOutcome.err PError.invalidAuthToken
  else if n = 1 then TransportOutcome.ok (PyVal.str "partner")
  else if n = 2 then TransportOutcome.ok (PyVal.str "user")
  else TransportOutcome.err PError.invalidAuthToken

/-- Sample credentials for the witness. -/
def sampleCreds : ClientCreds := ClientCreds.mk "pu" "pp" "dev" "user" "pw"

/-- Sample facade request for the witness. -/
def sampleRequest : Request :=
  Request.mk "station.getPlaylist" [("stationToken", PyVal.str "tok")]

/-- C3 witness: on the scripted transport the facade makes exactly the
original call, one partner login, one user login and one retry, and the second
InvalidAuthToken propagates. -/
theorem client_call_reauthenticates_once_witness :
    (clientCall scriptedTransport sampleCreds sampleRequest).2
        = [sampleRequest, partnerLoginRequest sampleCreds,
           userLoginRequest sampleCreds, sampleRequest]
    ∧ (clientCall scriptedTransport sampleCreds sampleRequest).1
        = Except.error PError.invalidAuthToken := by
  obtain ⟨htrace, hok, herr⟩ :=
    (client_call_reauthenticates_once scriptedTransport sampleCreds
        sampleRequest).2.2 (PyVal.str "partner") (PyVal.str "user") rfl rfl rfl
  exact ⟨htrace, herr PError.invalidAuthToken rfl⟩

/-! ### Grouped dict-of-lists model: `_base.py` lines 291-305

`PandoraDictListModel.from_json` builds an insertion-ordered dict from group
key to a list of constructed models.  The dict is modeled as an association
list with Python dict-assignment semantics; group keys are JSON strings (the
one subclass, GenreStationList, keys by categoryName). -/

/-- Generic key lookup in an insertion-ordered dict. -/
def alookup {α : Type} : List (String × α) → String → Option α
  | [], _ => Option.none
  | (k', v) :: rest, k => if k' = k then Option.some v else alookup rest k

/-- Python dict assignment `d[k] = v`: replaces the value of an existing key in
place, else appends a new entry. -/
def pyDictSet {α : Type} (d : List (String × α)) (k : String) (v : α) :
    List (String × α) :=
  if k ∈ d.map Prod.fst then
    d.map (fun kv => if kv.1 = k then (k, v) else kv)
  else d ++ [(k, v)]

/-- The class-level configuration of a PandoraDictListModel subclass;
`build` stands for `__list_model__.from_json api_client`. -/
structure DictListSpec where
  dictListKey : String
  dictKey : String
  listKey : String
  build : PyVal → PyVal

/-- Reading `item[__dict_key__]` and `item[__list_key__]` from one group
record; `none` models the KeyError/TypeError on a malformed record. -/
def groupOfItem (cfg : DictListSpec) (item : PyVal) :
    Option (String × List PyVal) :=
  match item with
  | PyVal.dict kvs =>
      match lookupKV kvs cfg.dictKey, lookupKV kvs cfg.listKey with
      | Option.some (PyVal.str k), Option.some (PyVal.list parts) =>
          Option.some (k, parts)
      | _, _ => Option.none
  | _ => Option.none

/-- The outer for-loop of PandoraDictListModel.from_json (lines 296-303):
`self[key] = []` resets the entry, then the inner loop appends the built
models, so the entry ends as the built list. -/
def dictListLoop (cfg : DictListSpec) :
    List PyVal → List (String × List PyVal) →
      Except String (List (String × List PyVal))
  | [], acc => Except.ok acc
  | item :: rest, acc =>
      match groupOfItem cfg item with
      | Option.none => Except.error "KeyError"
      | Option.some (k, parts) =>
          dictListLoop cfg rest (pyDictSet acc k (parts.map cfg.build))

/-- PandoraDictListModel.from_json (lines 291-305) restricted to the dict
entries it constructs (populate_fields on the declared plain fields is the
logic already embedded above and touches no dict entry). -/
def dictListFromJson (cfg : DictListSpec) (data : List (String × PyVal)) :
    Except String (List (String × List PyVal)) :=
  match lookupKV data cfg.dictListKey with
  | Option.some (PyVal.list items) => dictListLoop cfg items []
  | _ => Except.error "KeyError"

/-- The nested list of the last group record carrying key `k`, the record
whose entries the claim says survive. -/
def lastGroupParts (cfg : DictListSpec) : List PyVal → String → Option (List PyVal)
  | [], _ => Option.none
  | item :: rest, k =>
      match lastGroupParts cfg rest k with
      | Option.some ps => Option.some ps
      | Option.none =>
          match groupOfItem cfg item with
          | Option.some (k', ps) => if k' = k then Option.some ps else Option.none
          | Option.none => Option.none

theorem alookup_replace {α : Type} (d : List (String × α)) (k : String) (v : α)
    (h : k ∈ d.map Prod.fst) :
    alookup (d.map (fun kv => if kv.1 = k then (k, v) else kv)) k
      = Option.some v := by
  induction d with
  | nil => simp at h
  | cons kv rest ih =>
      obtain ⟨a, b⟩ := kv
      rw [List.map_cons]
      rw [show (if (a, b).1 = k then (k, v) else (a, b))
            = if a = k then (k, v) else (a, b) from rfl]
      by_cases hk : a = k
      · rw [if_pos hk]
        simp [alookup]
      · rw [if_neg hk]
        have hmem : k ∈ rest.map Prod.fst := by
          rw [List.map_cons] at h
          rcases List.mem_cons.mp h with h1 | h1
          · exact absurd h1.symm hk
          · exact h1
        simp [alookup, hk, ih hmem]

theorem alookup_replace_other {α : Type} (d : List (String × α)) (k : String)
    (v : α) (k' : String) (h : k' ≠ k) :
    alookup (d.map (fun kv => if kv.1 = k then (k, v) else kv)) k'
      = alookup d k' := by
  induction d with
  | nil => rfl
  | cons kv rest ih =>
      obtain ⟨a, b⟩ := kv
      rw [List.map_cons]
      rw [show (if (a, b).1 = k then (k, v) else (a, b))
            = if a = k then (k, v) else (a, b) from rfl]
      by_cases hk : a = k
      · subst hk
        rw [if_pos rfl]
        have hne : ¬(a = k') := fun he => h he.symm
        simp [alookup, hne, ih]
      · rw [if_neg hk]
        simp [alookup, ih]

theorem alookup_append_last {α : Type} (d : List (String × α)) (k : String)
    (v : α) (h : k ∉ d.map Prod.fst) :
    alookup (d ++ [(k, v)]) k = Option.some v := by
  induction d with
  | nil => simp [alookup]
  | cons kv rest ih =>
      obtain ⟨a, b⟩ := kv
      have hk : ¬(a = k) := by
        intro he
        exact h (by simp [he])
      have hmem : k ∉ rest.map Prod.fst := fun hm => h (by simp [hm])
      simp [alookup, hk, ih hmem]

theorem alookup_append_other {α : Type} (d : List (String × α)) (k : String)
    (v : α) (k' : String) (h : k' ≠ k) :
    alookup (d ++ [(k, v)]) k' = alookup d k' := by
  induction d with
  | nil =>
      have hne : ¬(k = k') := fun he => h he.symm
      simp [alookup, hne]
  | cons kv rest ih =>
      obtain ⟨a, b⟩ := kv
      by_cases hk : a = k'
      · simp [alookup, hk]
      · simp [alookup, hk, ih]

theorem map_fst_replace {α : Type} (d : List (String × α)) (k : String)
    (v : α) :
    (d.map (fun kv => if kv.1 = k then (k, v) else kv)).map Prod.fst
      = d.map Prod.fst := by
  induction d with
  | nil => rfl
  | cons kv rest ih =>
      obtain ⟨a, b⟩ := kv
      rw [List.map_cons]
      rw [show (if (a, b).1 = k then (k, v) else (a, b))
            = if a = k then (k, v) else (a, b) from rfl]
      by_cases hk : a = k
      · rw [if_pos hk]
        simp [hk, ih]
      · rw [if_neg hk]
        simp [ih]

theorem keys_pyDictSet {α : Type} (d : List (String × α)) (k : String) (v : α) :
    (pyDictSet d k v).map Prod.fst
      = if k ∈ d.map Prod.fst then d.map Prod.fst
        else d.map Prod.fst ++ [k] := by
  by_cases h : k ∈ d.map Prod.fst
  · simp only [pyDictSet, if_pos h, map_fst_replace]
  · simp [pyDictSet, if_neg h]

theorem alookup_pyDictSet_self {α : Type} (d : List (String × α)) (k : String)
    (v : α) : alookup (pyDictSet d k v) k = Option.some v := by
  unfold pyDictSet
  by_cases h : k ∈ d.map Prod.fst
  · rw [if_pos h]; exact alookup_replace d k v h
  · rw [if_neg h]; exact alookup_append_last d k v h

theorem alookup_pyDictSet_other {α : Type} (d : List (String × α))
    (k : String) (v : α) (k' : String) (h : k' ≠ k) :
    alookup (pyDictSet d k v) k' = alookup d k' := by
  unfold pyDictSet
  by_cases hm : k ∈ d.map Prod.fst
  · rw [if_pos hm]; exact alookup_replace_other d k v k' h
  · rw [if_neg hm]; exact alookup_append_other d k v k' h

theorem mem_keys_pyDictSet {α : Type} (d : List (String × α)) (k0 : String)
    (v : α) (k : String) :
    (k ∈ (pyDictSet d k0 v).map Prod.fst) ↔
      (k ∈ d.map Prod.fst ∨ k = k0) := by
  rw [keys_pyDictSet]
  by_cases h : k0 ∈ d.map Prod.fst
  · rw [if_pos h]
    constructor
    · exact Or.inl
    · rintro (hk | rfl)
      · exact hk
      · exact h
  · rw [if_neg h]
    simp

theorem nodup_keys_pyDictSet {α : Type} (d : List (String × α)) (k0 : String)
    (v : α) (h : (d.map Prod.fst).Nodup) :
    ((pyDictSet d k0 v).map Prod.fst).Nodup := by
  rw [keys_pyDictSet]
  by_cases hm : k0 ∈ d.map Prod.fst
  · rwa [if_pos hm]
  · rw [if_neg hm]
    refine h.append (List.nodup_singleton _) ?_
    intro x hx hx2
    rw [List.mem_singleton.mp hx2] at hx
    exact hm hx

/-- The accumulator-generalized specification of the from_json loop. -/
theorem dictListLoop_spec (cfg : DictListSpec) (items : List PyVal) :
    ∀ acc : List (String × List PyVal),
    (∀ item ∈ items, (groupOfItem cfg item).isSome = true) →
    ∃ d, dictListLoop cfg items acc = Except.ok d
    ∧ (∀ k, alookup d k =
        (match lastGroupParts cfg items k with
         | Option.some ps => Option.some (ps.map cfg.build)
         | Option.none => alookup acc k))
    ∧ (∀ k, k ∈ d.map Prod.fst ↔
        (k ∈ acc.map Prod.fst ∨ ∃ item ∈ items, ∃ ps,
          groupOfItem cfg item = Option.some (k, ps)))
    ∧ ((acc.map Prod.fst).Nodup → (d.map Prod.fst).Nodup) := by
  induction items with
  | nil =>
      intro acc _
      exact ⟨acc, rfl, fun k => by simp [lastGroupParts], fun k => by simp, id⟩
  | cons item rest ih =>
      intro acc h
      obtain ⟨⟨k0, ps0⟩, hitem⟩ :=
        Option.isSome_iff_exists.mp (h item (List.mem_cons_self _ _))
      obtain ⟨d, hloop, hlook, hmem, hnd⟩ :=
        ih (pyDictSet acc k0 (ps0.map cfg.build))
          (fun it hit => h it (List.mem_cons_of_mem _ hit))
      refine ⟨d, ?_, ?_, ?_, ?_⟩
      · simpa [dictListLoop, hitem] using hloop
      · intro k
        rw [hlook k]
        cases hrest : lastGroupParts cfg rest k with
        | some ps => simp [lastGroupParts, hrest]
        | none =>
            by_cases hk : k0 = k
            · subst hk
              simp [lastGroupParts, hrest, hitem, alookup_pyDictSet_self]
            · have hne : k ≠ k0 := fun he => hk he.symm
              simp [lastGroupParts, hrest, hitem, hk,
                alookup_pyDictSet_other acc k0 (ps0.map cfg.build) k hne]
      · intro k
        rw [hmem k, mem_keys_pyDictSet]
        constructor
        · rintro ((hk | rfl) | ⟨it, hit, ps, hps⟩)
          · exact Or.inl hk
          · exact Or.inr ⟨item, List.mem_cons_self _ _, ps0, hitem⟩
          · exact Or.inr ⟨it, List.mem_cons_of_mem _ hit, ps, hps⟩
        · rintro (hk | ⟨it, hit, ps, hps⟩)
          · exact Or.inl (Or.inl hk)
          · rcases List.mem_cons.mp hit with rfl | hit2
            · rw [hitem] at hps
              exact Or.inl (Or.inr (by
                injection hps with hpair
                exact (congrArg Prod.fst hpair).symm))
            · exact Or.inr ⟨it, hit2, ps, hps⟩
      · intro hacc
        exact hnd (nodup_keys_pyDictSet acc k0 (ps0.map cfg.build) hacc)

/-- C8: when every group record carries a group key and a nested list, the
grouped dict-of-lists from_json succeeds; each group key present in the outer
array becomes exactly one dict entry (keys are nodup and a key is present
exactly when some record carries it); and the entry for a key holds exactly
the models built, in nested-array order, from the LAST record with that key —
a later duplicate record replaces the earlier one's entries rather than
merging, because `self[key] = []` resets the entry. -/
theorem dict_list_last_record_wins (cfg : DictListSpec)
    (data : List (String × PyVal)) (items : List PyVal)
    (hdata : lookupKV data cfg.dictListKey = Option.some (PyVal.list items))
    (hwf : ∀ item ∈ items, (groupOfItem cfg item).isSome = true) :
    ∃ d, dictListFromJson cfg data = Except.ok d
    ∧ (d.map Prod.fst).Nodup
    ∧ (∀ k, k ∈ d.map Prod.fst ↔ ∃ item ∈ items, ∃ ps,
        groupOfItem cfg item = Option.some (k, ps))
    ∧ (∀ k ps, lastGroupParts cfg items k = Option.some ps →
        alookup d k = Option.some (ps.map cfg.build)) := by
  obtain ⟨d, hloop, hlook, hmem, hnd⟩ := dictListLoop_spec cfg items [] hwf
  refine ⟨d, ?_, hnd (by simp), ?_, ?_⟩
  · simp only [dictListFromJson, hdata]
    exact hloop
  · intro k
    simpa using hmem k
  · intro k ps hps
    rw [hlook k, hps]

/-- A GenreStationList-shaped configuration with the identity model builder. -/
def genreCfg : DictListSpec :=
  DictListSpec.mk "categories" "categoryName" "stations" (fun v => v)

/-- An outer array with two records sharing group key A around one with key B. -/
def dupItems : List PyVal :=
  [PyVal.dict [("categoryName", PyVal.str "A"),
               ("stations", PyVal.list [PyVal.str "a1"])],
   PyVal.dict [("categoryName", PyVal.str "B"),
               ("stations", PyVal.list [PyVal.str "b1"])],
   PyVal.dict [("categoryName", PyVal.str "A"),
               ("stations", PyVal.list [PyVal.str "a2"])]]

/-- C8 witness: on the duplicate-key payload, from_json succeeds and the entry
for the repeated key A holds exactly the last record's built list. -/
theorem dict_list_last_record_wins_witness :
    ∃ d, dictListFromJson genreCfg [("categories", PyVal.list dupItems)]
        = Except.ok d
    ∧ alookup d "A" = Option.some [PyVal.str "a2"] := by
  obtain ⟨d, hok, _, _, hlast⟩ :=
    dict_list_last_record_wins genreCfg
      [("categories", PyVal.list dupItems)] dupItems rfl (by decide)
  exact ⟨d, hok, hlast "A" [PyVal.str "a2"] rfl⟩

end Pydora
